import Mathlib

/-
Formal model of the portfolio-optimizer backend
(src/backend/app/optimizer.py, src/backend/app/backtester.py,
src/backend/app/main.py), shallowly embedded in Lean 4.

Conventions of the embedding:
* Python floats are modelled as real numbers (`ℝ`) where square roots or
  real powers occur, and as rationals (`ℚ`) where the source only uses
  field operations, so that witnesses can be checked by `decide`.
* A float division whose IEEE result would be non-finite (x / 0 giving
  ±Inf or NaN) is modelled by `Option ℝ` with `none` for the non-finite
  case, or is guarded exactly as the source guards it.
* Python exceptions are modelled by `Except String`; a function that the
  source cannot abort is wrapped in `.ok` to record that fact.
* pandas `DataFrame`s are date-indexed lists of rows `List (ℕ × List ℝ)`;
  pandas `Series` are `List (ℕ × ℝ)`; dates are natural numbers.
* External library calls (scipy.optimize.minimize, pandas calendar
  resampling) are modelled as oracle inputs, since their outputs are data
  the code under analysis merely consumes.
-/

/-! ### Generic list helpers -/

/-- Dictionary lookup with a default: `weights.get(t, 0)`. -/
def lookupD {α : Type} (dict : List (String × α)) (key : String) (dflt : α) : α :=
  match dict.find? (fun kv => kv.1 = key) with
  | some kv => kv.2
  | none => dflt

/-- Lookup in a date-indexed series. -/
def lookupDate {α : Type} (s : List (ℕ × α)) (d : ℕ) : Option α :=
  match s.find? (fun kv => kv.1 = d) with
  | some kv => some kv.2
  | none => none

/-- Dot product of two real lists (`np.dot` / elementwise product then sum). -/
def dotR (xs ys : List ℝ) : ℝ :=
  (List.zipWith (fun a b => a * b) xs ys).sum

/-- Quadratic form `np.dot(weights.T, np.dot(cov_matrix, weights))`. -/
def quadForm (w : List ℝ) (cov : List (List ℝ)) : ℝ :=
  dotR w (cov.map (fun row => dotR row w))

/-! ### optimizer.py: `calculate_portfolio_performance` and `negative_sharpe`
(lines 69-81) -/

/-- `calculate_portfolio_performance(weights, mean_returns, cov_matrix,
risk_free_rate, annualization_factor)`: returns
`(returns, std, sharpe)` with
`returns = np.sum(mean_returns * weights) * A`,
`std = sqrt(wᵀΣw) * sqrt(A)`,
`sharpe = (returns - rf) / std` (unguarded float division; Lean's
division-by-zero convention enters only at `std = 0`, where the IEEE
result would be non-finite — see `negative_sharpe`). -/
noncomputable def calculate_portfolio_performance
    (weights mean_returns : List ℝ) (cov_matrix : List (List ℝ))
    (risk_free_rate : ℝ) (annualization_factor : ℕ) : ℝ × ℝ × ℝ :=
  let ret := dotR mean_returns weights * (annualization_factor : ℝ)
  let std := Real.sqrt (quadForm weights cov_matrix) *
    Real.sqrt (annualization_factor : ℝ)
  (ret, std, (ret - risk_free_rate) / std)

/-- `negative_sharpe(weights, ...) = -sharpe` (optimizer.py lines 78-81).
The source divides by `std` with no guard; when `std = 0` the IEEE float
result is ±Inf (or NaN for 0/0), which we model as `none`.  There is no
sentinel branch in the source, in contrast with the Kelly, Sortino, Omega,
Treynor and Calmar objectives which return ±1e10 sentinels. -/
noncomputable def negative_sharpe
    (weights mean_returns : List ℝ) (cov_matrix : List (List ℝ))
    (risk_free_rate : ℝ) (annualization_factor : ℕ) : Option ℝ :=
  let p := calculate_portfolio_performance weights mean_returns cov_matrix
    risk_free_rate annualization_factor
  if p.2.1 = 0 then none else some (-p.2.2)

/-! ### optimizer.py: `ledoit_wolf_shrinkage` (lines 5-67)

The returns matrix is a list of `T` rows of `N` floats.  `returns.cov()`
is the pandas sample covariance (denominator `T - 1`), `returns.corr()`
the pandas correlation matrix. -/

/-- Number of observations `T`. -/
def lwT (returns : List (List ℝ)) : ℕ := returns.length

/-- Number of assets `N` (the row width). -/
def lwN (returns : List (List ℝ)) : ℕ := (returns.headD []).length

/-- Column `j` of the returns matrix. -/
def colVals (returns : List (List ℝ)) (j : ℕ) : List ℝ :=
  returns.map (fun row => row.getD j 0)

/-- Column mean `returns.mean()[j]`. -/
noncomputable def colMean (returns : List (List ℝ)) (j : ℕ) : ℝ :=
  (colVals returns j).sum / (lwT returns : ℝ)

/-- `sample_cov[i][j] = returns.cov()` entry (pandas, denominator `T-1`). -/
noncomputable def sampleCovEntry (returns : List (List ℝ)) (i j : ℕ) : ℝ :=
  ((returns.map (fun row =>
      (row.getD i 0 - colMean returns i) * (row.getD j 0 - colMean returns j))).sum)
    / ((lwT returns : ℝ) - 1)

/-- `std_devs[i] = np.sqrt(np.diag(sample_cov))[i]`. -/
noncomputable def lwStdDev (returns : List (List ℝ)) (i : ℕ) : ℝ :=
  Real.sqrt (sampleCovEntry returns i i)

/-- `sample_corr[i][j] = returns.corr()` entry: covariance divided by the
product of standard deviations. -/
noncomputable def sampleCorrEntry (returns : List (List ℝ)) (i j : ℕ) : ℝ :=
  sampleCovEntry returns i j / (lwStdDev returns i * lwStdDev returns j)

/-- `np.sum(sample_corr)`: sum of all `N × N` correlation entries. -/
noncomputable def corrTotal (returns : List (List ℝ)) : ℝ :=
  ((List.range (lwN returns)).map (fun i =>
    ((List.range (lwN returns)).map (fun j => sampleCorrEntry returns i j)).sum)).sum

/-- `mean_corr = (np.sum(sample_corr) - N) / (N * (N - 1))`. -/
noncomputable def meanCorr (returns : List (List ℝ)) : ℝ :=
  (corrTotal returns - (lwN returns : ℝ)) /
    ((lwN returns : ℝ) * ((lwN returns : ℝ) - 1))

/-- The shrinkage target: `target = mean_corr * np.outer(std_devs, std_devs)`
followed by `np.fill_diagonal(target, np.diag(sample_cov))`. -/
noncomputable def targetEntry (returns : List (List ℝ)) (i j : ℕ) : ℝ :=
  if i = j then sampleCovEntry returns i i
  else meanCorr returns * (lwStdDev returns i * lwStdDev returns j)

/-- The `t`-th centered observation `r_t - returns.mean()`, component `j`. -/
noncomputable def centeredEntry (returns : List (List ℝ)) (t j : ℕ) : ℝ :=
  (returns.getD t []).getD j 0 - colMean returns j

/-- One term of `delta_num`: `np.sum((sample_cov_t - sample_cov) ** 2)` where
`sample_cov_t = centered @ centered.T`. -/
noncomputable def deltaNumTerm (returns : List (List ℝ)) (t : ℕ) : ℝ :=
  ((List.range (lwN returns)).map (fun i =>
    ((List.range (lwN returns)).map (fun j =>
      (centeredEntry returns t i * centeredEntry returns t j -
        sampleCovEntry returns i j) ^ 2)).sum)).sum

/-- `delta_num`: the loop over `t in range(T)` followed by `delta_num /= T`. -/
noncomputable def deltaNum (returns : List (List ℝ)) : ℝ :=
  ((List.range (lwT returns)).map (fun t => deltaNumTerm returns t)).sum
    / (lwT returns : ℝ)

/-- `delta_den = np.sum((sample_cov - target) ** 2)`. -/
noncomputable def deltaDen (returns : List (List ℝ)) : ℝ :=
  ((List.range (lwN returns)).map (fun i =>
    ((List.range (lwN returns)).map (fun j =>
      (sampleCovEntry returns i j - targetEntry returns i j) ^ 2)).sum)).sum

/-- `delta = min(1, max(0, delta_num / delta_den)) if delta_den > 0 else 0`. -/
noncomputable def lwDelta (returns : List (List ℝ)) : ℝ :=
  if 0 < deltaDen returns
  then min 1 (max 0 (deltaNum returns / deltaDen returns))
  else 0

/-- `shrunk_cov = delta * target + (1 - delta) * sample_cov`, entrywise. -/
noncomputable def shrunkCovEntry (returns : List (List ℝ)) (i j : ℕ) : ℝ :=
  lwDelta returns * targetEntry returns i j +
    (1 - lwDelta returns) * sampleCovEntry returns i j

/-- The Python message for an integer division by zero. -/
def zeroDivisionErrorMsg : String := "ZeroDivisionError: division by zero"

/-- `ledoit_wolf_shrinkage(returns)` returns `(shrunk_cov, delta)`.  The
source body contains no explicit `raise` and no length check; its only
abort point is the statement `delta_num /= T` (line 58): when `T = 0` the
`for t in range(T)` loop never runs, `delta_num` is still the Python int
`0`, and `0 / 0` raises ZeroDivisionError.  Everything before that line is
silent pandas/numpy arithmetic even on an empty frame.  For `T = 1` the
loop runs, the division is a float division by `1`, and the function
returns normally (pandas produces a NaN covariance from the `T - 1 = 0`
denominator, raising nothing). -/
noncomputable def ledoit_wolf_shrinkage (returns : List (List ℝ)) :
    Except String ((ℕ → ℕ → ℝ) × ℝ) :=
  if returns.length = 0 then .error zeroDivisionErrorMsg
  else .ok (fun i j => shrunkCovEntry returns i j, lwDelta returns)

/-! ### optimizer.py: objective dispatch in `optimize_portfolio`
(lines 368-399) -/

/-- The objective function handed to `scipy.optimize.minimize`. -/
inductive ObjectiveKind where
  | sharpe
  | min_vol
  | max_return
  | kelly
  | sortino
  | omega
  | calmar
  | treynor
  deriving DecidableEq

/-- The eight recognized objective tags of the data model / spec
(ObjectiveSpec). -/
def recognizedObjectiveTags : List String :=
  ["sharpe", "min_vol", "max_return", "kelly", "sortino", "omega",
   "treynor", "calmar"]

/-- The `if/elif` chain of `optimize_portfolio` selecting the objective
function (optimizer.py lines 368-399): `"min_vol"` and `"min_volatility"`
both select minimum volatility; `"treynor"` without a benchmark raises
`ValueError`; any other unknown string prints a warning and falls back to
the Sharpe objective. -/
def select_objective (objective : String) (benchmark_returns_present : Bool) :
    Except String ObjectiveKind :=
  if objective = "sharpe" then .ok .sharpe
  else if objective = "min_vol" || objective = "min_volatility" then .ok .min_vol
  else if objective = "max_return" then .ok .max_return
  else if objective = "kelly" then .ok .kelly
  else if objective = "sortino" then .ok .sortino
  else if objective = "omega" then .ok .omega
  else if objective = "calmar" then .ok .calmar
  else if objective = "treynor" then
    if benchmark_returns_present then .ok .treynor
    else .error "Treynor optimization requires benchmark_prices parameter"
  else .ok .sharpe

/-! ### Error messages for the modelled Python exception surface -/

/-- The pandas message for `.iloc[-1]` / `.iloc[0]` on an empty frame. -/
def indexErrorMsg : String := "IndexError: single positional indexer is out-of-bounds"

/-- The pandas message for `.loc` with a missing label. -/
def keyErrorMsg : String := "KeyError: .loc with missing labels"

/-- The scipy message for `linregress` on constant x values. -/
def valueErrorMsg : String :=
  "ValueError: Cannot calculate a linear regression if all x values are identical"

/-! ### main.py `/api/optimize` + optimizer.py `calculate_efficient_frontier`
optimal-portfolio selection (main.py lines 145-173, optimizer.py lines
581-599) -/

/-- The metrics sub-dictionary of an `OptimizationResult`
(`expected_return`, `volatility`, `sharpe_ratio`); the source key
`sharpe_ratio` is rendered as `sharpe`. -/
structure OptMetrics where
  expected_return : ℝ
  volatility : ℝ
  sharpe : ℝ

/-- The dictionary returned by `optimize_portfolio` (optimizer.py lines
410-419). -/
structure OptimizationResult where
  weights : List (String × ℝ)
  metrics : OptMetrics
  success : Bool
  message : String

/-- One frontier / optimal-portfolio record
`{volatility, return, sharpe_ratio, weights}`; the source key `return`
is rendered as `ret` (reserved word), `sharpe_ratio` as `sharpe`. -/
structure PortfolioPoint where
  volatility : ℝ
  ret : ℝ
  sharpe : ℝ
  weights : List (String × ℝ)

/-- Python's `max(frontier_points, key=lambda x: x['sharpe_ratio'])`
guarded by `if frontier_points else None` (optimizer.py line 599):
the first element with maximal sharpe wins. -/
noncomputable def pyMaxBySharpe : List PortfolioPoint → Option PortfolioPoint
  | [] => none
  | p :: rest =>
    some (rest.foldl (fun best q => if best.sharpe < q.sharpe then q else best) p)

/-- The optimal-portfolio selection of `calculate_efficient_frontier`
(optimizer.py lines 581-599): when `optimal_weights` is provided the
metrics are recomputed from them via `calculate_portfolio_performance`;
otherwise the best-sharpe frontier point is picked.  The frontier points
themselves come from the scipy solver loop and enter here as data. -/
noncomputable def frontier_optimal_pick
    (optimal_weights : Option (List (String × ℝ))) (tickers : List String)
    (mean_returns : List ℝ) (cov_matrix : List (List ℝ))
    (risk_free_rate : ℝ) (annualization_factor : ℕ)
    (frontier_points : List PortfolioPoint) : Option PortfolioPoint :=
  match optimal_weights with
  | some ow =>
    let arr := tickers.map (fun t => lookupD ow t 0)
    let p := calculate_portfolio_performance arr mean_returns cov_matrix
      risk_free_rate annualization_factor
    some { volatility := p.2.1, ret := p.1, sharpe := p.2.2, weights := ow }
  | none => pyMaxBySharpe frontier_points

/-- The `/api/optimize` handler's wiring around the frontier generator
(main.py lines 145-173): `pass_weights` is the optimization result's
weights only when the chosen objective is `"sharpe"`; afterwards, for the
sharpe objective, the frontier's `optimal_portfolio` is overwritten with
exactly the `expected_return` / `volatility` / `sharpe_ratio` / `weights`
of the externally supplied `OptimizationResult`. -/
noncomputable def optimize_endpoint_optimal (objective : String)
    (optimization_result : OptimizationResult) (tickers : List String)
    (mean_returns : List ℝ) (cov_matrix : List (List ℝ))
    (risk_free_rate : ℝ) (annualization_factor : ℕ)
    (frontier_points : List PortfolioPoint) : Option PortfolioPoint :=
  let pass_weights :=
    if objective = "sharpe" then some optimization_result.weights else none
  let frontier_opt := frontier_optimal_pick pass_weights tickers mean_returns
    cov_matrix risk_free_rate annualization_factor frontier_points
  if objective = "sharpe" then
    some { volatility := optimization_result.metrics.volatility,
           ret := optimization_result.metrics.expected_return,
           sharpe := optimization_result.metrics.sharpe,
           weights := optimization_result.weights }
  else frontier_opt

/-! ### backtester.py: `run_backtest_with_rebalancing` (lines 4-90)

The arithmetic here is pure field arithmetic (no square roots), so the
model is fully computable over `ℚ`.  The pandas calendar resampling
`prices.resample(freq).last().index` is external; its output enters as
the oracle argument `resampled_period_ends`, consulted only when the
frequency is monthly/quarterly/annual (for `"never"` the source sets the
rebalance dates to the empty list). -/

/-- Dot product over `ℚ`: `(shares * row).sum()`. -/
def dotQ (xs ys : List ℚ) : ℚ :=
  (List.zipWith (fun a b => a * b) xs ys).sum

/-- `series.pct_change().dropna()` over plain values. -/
def pctChangeQAux (prev : ℚ) : List ℚ → List ℚ
  | [] => []
  | v :: rest => (v - prev) / prev :: pctChangeQAux v rest

/-- pct_change of a value series: drops the first element. -/
def pctChangeQ : List ℚ → List ℚ
  | [] => []
  | v :: rest => pctChangeQAux v rest

/-- Loop state of the rebalancing backtest: current share counts,
accumulated transaction costs, rebalance dates, and recorded portfolio
values. -/
structure RebalState where
  shares : List ℚ
  total_costs : ℚ
  dates : List ℕ
  values : List ℚ

/-- One iteration of `for date, row in prices.iterrows()` (backtester.py
lines 49-73): record the current value, then, if the date is a rebalance
boundary, charge the linear transaction cost on total turnover dollars and
reallocate the net value into new share counts at today's prices. -/
def rebalanceStep (weight_vector : List ℚ) (transaction_cost_pct : ℚ)
    (rebalance_periods : List ℕ) (st : RebalState) (row : ℕ × List ℚ) :
    RebalState :=
  let current_value := dotQ st.shares row.2
  let values := st.values ++ [current_value]
  if row.1 ∈ rebalance_periods then
    let current_dollars := List.zipWith (fun s p => s * p) st.shares row.2
    let target_dollars := weight_vector.map (fun w => w * current_value)
    let trade_dollars :=
      List.zipWith (fun t c => |t - c|) target_dollars current_dollars
    let transaction_cost := trade_dollars.sum * transaction_cost_pct
    let net_value := current_value - transaction_cost
    let new_dollars := weight_vector.map (fun w => w * net_value)
    { shares := List.zipWith (fun d p => d / p) new_dollars row.2,
      total_costs := st.total_costs + transaction_cost,
      dates := st.dates ++ [row.1],
      values := values }
  else
    { st with values := values }

/-- The dictionary returned by `run_backtest_with_rebalancing`
(backtester.py lines 82-90).  `portfolio_value` keeps only the value
series (its index is the price index). -/
structure RebalanceOutcome where
  portfolio_values : List ℚ
  returns : List ℚ
  total_return : ℚ
  total_transaction_costs : ℚ
  transaction_cost_pct_of_initial : ℚ
  num_rebalances : ℕ
  rebalance_dates : List ℕ

/-- `run_backtest_with_rebalancing(prices, weights, initial_capital,
rebalance_frequency, transaction_cost_pct)` (backtester.py lines 4-90).
`prices.iloc[0]` raises IndexError on an empty panel, modelled by the
`.error` branch; everything else runs straight through. -/
def run_backtest_with_rebalancing (tickers : List String)
    (prices : List (ℕ × List ℚ)) (weights : List (String × ℚ))
    (initial_capital : ℚ) (rebalance_frequency : String)
    (transaction_cost_pct : ℚ) (resampled_period_ends : List ℕ) :
    Except String RebalanceOutcome :=
  match prices with
  | [] => .error indexErrorMsg
  | first :: rest =>
    let weight_vector := tickers.map (fun t => lookupD weights t 0)
    let asset_prices := first.2
    let initial_dollars := weight_vector.map (fun w => w * initial_capital)
    let shares := List.zipWith (fun d p => d / p) initial_dollars asset_prices
    let rebalance_periods :=
      if rebalance_frequency = "monthly" ∨ rebalance_frequency = "quarterly" ∨
          rebalance_frequency = "annual"
      then resampled_period_ends else []
    let final := (first :: rest).foldl
      (rebalanceStep weight_vector transaction_cost_pct rebalance_periods)
      { shares := shares, total_costs := 0, dates := [], values := [] }
    let portfolio_values := final.values
    let returns := pctChangeQ portfolio_values
    let total_return := portfolio_values.getLastD 0 / initial_capital - 1
    .ok { portfolio_values := portfolio_values,
          returns := returns,
          total_return := total_return,
          total_transaction_costs := final.total_costs,
          transaction_cost_pct_of_initial := final.total_costs / initial_capital,
          num_rebalances := final.dates.length,
          rebalance_dates := final.dates }

/-- The buy-and-hold total return in the words of the specification: hold
the initial share counts `weight_i * capital / first_price_i` unchanged to
the final date and compare the final market value with the initial
capital.  (This is the comparison definition for the refinement claim, not
a translation of the source.) -/
def buyAndHoldTotalReturn (tickers : List String) (prices : List (ℕ × List ℚ))
    (weights : List (String × ℚ)) (initial_capital : ℚ) : ℚ :=
  match prices with
  | [] => 0
  | first :: rest =>
    let weight_vector := tickers.map (fun t => lookupD weights t 0)
    let shares := List.zipWith (fun w p => w * initial_capital / p)
      weight_vector first.2
    dotQ shares ((rest.getLastD first).2) / initial_capital - 1

/-! ### backtester.py: `run_backtest` (lines 92-443)

The full-metrics backtest.  The model follows the source's order of
effects exactly:

* `asset_returns = prices.pct_change().dropna()` (line 101),
* portfolio returns, cumulative returns, portfolio value, drawdown
  (lines 105-114) — all silent, even on an empty panel (pandas
  `.min()` of an empty series is a silent NaN),
* `total_return = cumulative_returns.iloc[-1] - 1` (line 117) — raises
  IndexError on an empty series, which is the only abort point,
* the `days < 1` early return with empty metrics (lines 122-123) —
  reachable only after the `iloc[-1]` above succeeded, hence dead,
* Sharpe / Sortino with their explicit `!= 0` guards (lines 128-149),
* the benchmark block (lines 151-214), entered only when a non-empty
  benchmark is given and the date intersection has more than 10 points;
  inside it the two `.loc[common_dates]` alignments can raise KeyError,
  and `scipy.stats.linregress` (line 213) raises ValueError when the
  aligned benchmark returns are all identical,
* the unconditional return of the result dictionary (lines 396-443).
  The rebalancing block at lines 445-468 sits after this `return`
  statement (and reads an undefined name `return_dict`), so the result
  never contains a `"rebalancing"` entry and `rebalance_freq` is never
  consulted.

Purely descriptive metrics (monthly matrices, VaR/CVaR percentiles,
skewness, drawdown episodes, chart data) are not read by any claim; the
model records the exact key sets of the returned dictionaries and the
claim-relevant values. -/

/-- `prices.pct_change().dropna()` for a date-indexed row panel: row flows
from the previous row via `(current - previous) / previous`, the first row
is dropped. -/
noncomputable def pctChangeRowsAux (prev : List ℝ) :
    List (ℕ × List ℝ) → List (ℕ × List ℝ)
  | [] => []
  | (d, row) :: rest =>
    (d, List.zipWith (fun p c => (c - p) / p) prev row) :: pctChangeRowsAux row rest

/-- Panel percentage change, first row dropped. -/
noncomputable def pctChangeRows : List (ℕ × List ℝ) → List (ℕ × List ℝ)
  | [] => []
  | (_, row0) :: rest => pctChangeRowsAux row0 rest

/-- `series.pct_change().dropna()` for a date-indexed value series. -/
noncomputable def pctChangeSeriesAux (prev : ℝ) : List (ℕ × ℝ) → List (ℕ × ℝ)
  | [] => []
  | (d, v) :: rest => (d, (v - prev) / prev) :: pctChangeSeriesAux v rest

/-- Series percentage change, first element dropped. -/
noncomputable def pctChangeSeries : List (ℕ × ℝ) → List (ℕ × ℝ)
  | [] => []
  | (_, v0) :: rest => pctChangeSeriesAux v0 rest

/-- `(1 + portfolio_returns).cumprod()` with running accumulator. -/
noncomputable def cumprodOnePlusAux (acc : ℝ) : List ℝ → List ℝ
  | [] => []
  | r :: rest => (acc * (1 + r)) :: cumprodOnePlusAux (acc * (1 + r)) rest

/-- Cumulative product of `1 + r`. -/
noncomputable def cumprodOnePlus (rs : List ℝ) : List ℝ :=
  cumprodOnePlusAux 1 rs

/-- `portfolio_value.cummax()` tail given the running maximum so far. -/
noncomputable def runningMaxAux (m : ℝ) : List ℝ → List ℝ
  | [] => []
  | v :: rest => max m v :: runningMaxAux (max m v) rest

/-- `portfolio_value.cummax()`. -/
noncomputable def runningMax : List ℝ → List ℝ
  | [] => []
  | v :: rest => v :: runningMaxAux v rest

/-- `drawdown = (portfolio_value - rolling_max) / rolling_max`. -/
noncomputable def drawdownSeries (vals : List ℝ) : List ℝ :=
  List.zipWith (fun v m => (v - m) / m) vals (runningMax vals)

/-- `series.min()` with an explicit default for the empty series (pandas
yields a silent NaN there; the default is never observed because
`run_backtest` aborts earlier on an empty series). -/
noncomputable def listMinD (l : List ℝ) (dflt : ℝ) : ℝ :=
  match l with
  | [] => dflt
  | x :: xs => xs.foldl min x

/-- `series.getLast` with default, used to model `.iloc[-1]` at spots the
source has already guarded to be non-empty. -/
noncomputable def listLastD (l : List ℝ) (dflt : ℝ) : ℝ := l.getLastD dflt

/-- Mean of a value list (`series.mean()`). -/
noncomputable def listMeanR (l : List ℝ) : ℝ := l.sum / (l.length : ℝ)

/-- pandas `series.std()` (sample standard deviation, denominator `n-1`). -/
noncomputable def sampleStdR (l : List ℝ) : ℝ :=
  Real.sqrt ((l.map (fun x => (x - listMeanR l) ^ 2)).sum / ((l.length : ℝ) - 1))

/-- `np.cov(x, y)[0][1]` (denominator `n - 1`). -/
noncomputable def npCovXY (x y : List ℝ) : ℝ :=
  (List.zipWith (fun a b => (a - listMeanR x) * (b - listMeanR y)) x y).sum /
    ((x.length : ℝ) - 1)

/-- `np.var(y)` (population variance, denominator `n`). -/
noncomputable def npVarPop (y : List ℝ) : ℝ :=
  (y.map (fun b => (b - listMeanR y) ^ 2)).sum / (y.length : ℝ)

/-- `annualized_return = (1 + total_return) ** (1 / years) - 1 if years > 0
else 0`, with `years = days / annualization_factor` (lines 125-126). -/
noncomputable def annualizedReturnOf (total_return : ℝ) (days A : ℕ) : ℝ :=
  let years : ℝ := (days : ℝ) / (A : ℝ)
  if 0 < years then (1 + total_return) ^ ((1 : ℝ) / years) - 1 else 0

/-- The benchmark-regression metrics of the backtest (source keys `beta`,
`alpha`, `tracking_error`, `information_ratio`, `up_capture`,
`down_capture`, `r_squared`; the fourth is rendered `information`). -/
structure BenchMetrics where
  beta : ℝ
  alpha : ℝ
  tracking_error : ℝ
  information : ℝ
  up_capture : ℝ
  down_capture : ℝ
  r_squared : ℝ

/-- The initialization `beta = 0; alpha = 0; ...` of lines 152-158: all
benchmark metrics are zero unless the regression branch overwrites them. -/
def zeroBench : BenchMetrics :=
  { beta := 0, alpha := 0, tracking_error := 0, information := 0,
    up_capture := 0, down_capture := 0, r_squared := 0 }

/-- Squared Pearson correlation, the closed form of the `r_value ** 2`
returned by the external `scipy.stats.linregress` call of line 213.  Valid
only when that call does not abort; the abort guard (`linregressXConstant`)
is modelled separately at the call site in `benchExcept`. -/
noncomputable def pearsonSq (x y : List ℝ) : ℝ :=
  ((List.zipWith (fun a b => (a - listMeanR x) * (b - listMeanR y)) x y).sum) ^ 2 /
    ((x.map (fun a => (a - listMeanR x) ^ 2)).sum *
     (y.map (fun b => (b - listMeanR y) ^ 2)).sum)

/-- scipy's abort guard in `linregress(x, y)`:
`np.amax(x) == np.amin(x) and len(x) > 1` raises
`ValueError("Cannot calculate a linear regression if all x values are
identical")`.  For a non-empty list, `amax = amin` is equivalent to every
element equalling the head (the call site always passes more than 10
elements, so the empty case never arises there). -/
noncomputable def linregressXConstant (x : List ℝ) : Bool :=
  x.all (fun a => decide (a = x.headD 0)) && decide (1 < x.length)

/-- The body of the regression branch (backtester.py lines 168-214),
evaluated on the aligned portfolio and benchmark return lists. -/
noncomputable def benchRegressionVals (port bench : List ℝ)
    (risk_free_rate : ℝ) (A : ℕ) (annualized_return : ℝ) : BenchMetrics :=
  let covariance := npCovXY port bench
  let variance := npVarPop bench
  let beta := if variance ≠ 0 then covariance / variance else 1
  let bench_total_ret := listLastD (cumprodOnePlus bench) 1 - 1
  let bench_ann_ret :=
    (1 + bench_total_ret) ^ ((A : ℝ) / (bench.length : ℝ)) - 1
  let alpha := annualized_return -
    (risk_free_rate + beta * (bench_ann_ret - risk_free_rate))
  let active := List.zipWith (fun p b => p - b) port bench
  let tracking_error := sampleStdR active * Real.sqrt (A : ℝ)
  let information := if tracking_error ≠ 0 then alpha / tracking_error else 0
  let pairs := List.zipWith (fun p b => (p, b)) port bench
  let ups := pairs.filter (fun pb => 0 < pb.2)
  let up_capture :=
    if 0 < ups.length then
      let port_up := listMeanR (ups.map Prod.fst)
      let bench_up := listMeanR (ups.map Prod.snd)
      if bench_up ≠ 0 then port_up / bench_up * 100 else 0
    else 0
  let downs := pairs.filter (fun pb => pb.2 < 0)
  let down_capture :=
    if 0 < downs.length then
      let port_down := listMeanR (downs.map Prod.fst)
      let bench_down := listMeanR (downs.map Prod.snd)
      if bench_down ≠ 0 then port_down / bench_down * 100 else 0
    else 0
  { beta := beta, alpha := alpha, tracking_error := tracking_error,
    information := information, up_capture := up_capture,
    down_capture := down_capture, r_squared := pearsonSq bench port }

/-- `portfolio_returns.index.intersection(benchmark_data.index)` for two
monotone date indexes: order-preserving filter. -/
def commonDates (portDates benchDates : List ℕ) : List ℕ :=
  portDates.filter (fun d => d ∈ benchDates)

/-- `series.loc[dates]`: raises KeyError when any requested date is
missing. -/
def seriesLoc (s : List (ℕ × ℝ)) : List ℕ → Except String (List ℝ)
  | [] => .ok []
  | d :: rest =>
    match lookupDate s d with
    | none => .error keyErrorMsg
    | some v => (seriesLoc s rest).map (fun tl => v :: tl)

/-- Total variant of `series.loc[dates]` (default 0), equal to `seriesLoc`
whenever every date is present. -/
def locValsD (s : List (ℕ × ℝ)) (dates : List ℕ) : List ℝ :=
  dates.map (fun d => (lookupDate s d).getD 0)

/-- The guard of the benchmark block: a benchmark Series is given, it is
non-empty, and the date intersection has strictly more than 10 points
(lines 160-164). -/
def benchCondition (portDates : List ℕ) :
    Option (List (ℕ × ℝ)) → Bool
  | none => false
  | some b =>
    !b.isEmpty && decide (10 < (commonDates portDates (b.map Prod.fst)).length)

/-- Whether the regression branch would abort nowhere: the two
`.loc[common_dates]` alignments find every date and the aligned benchmark
returns are not all identical (scipy's `linregress` constant-x guard at
line 213).  Vacuously true when the branch is not taken. -/
noncomputable def benchLookupsGood (portRets : List (ℕ × ℝ)) :
    Option (List (ℕ × ℝ)) → Bool
  | none => true
  | some b =>
    let common := commonDates (portRets.map Prod.fst) (b.map Prod.fst)
    !(benchCondition (portRets.map Prod.fst) (some b)) ||
      (common.all (fun d => (lookupDate portRets d).isSome) &&
       common.all (fun d => (lookupDate (pctChangeSeries b) d).isSome) &&
       !(linregressXConstant (locValsD (pctChangeSeries b) common)))

/-- The benchmark block of `run_backtest` (lines 151-214) on the Python
exception surface: outside the guard everything stays zeroed; inside it
the two `.loc` alignments may raise KeyError, and the final
`scipy.stats.linregress` call of line 213 raises ValueError when the
aligned benchmark returns are all identical (the regression values
computed before that line are then lost with the abort); otherwise the
regression runs to completion. -/
noncomputable def benchExcept (portRets : List (ℕ × ℝ)) :
    Option (List (ℕ × ℝ)) → ℝ → ℕ → ℝ → Except String BenchMetrics
  | none, _, _, _ => .ok zeroBench
  | some b, risk_free_rate, A, annualized_return =>
    if b.isEmpty then .ok zeroBench
    else
      let common := commonDates (portRets.map Prod.fst) (b.map Prod.fst)
      if 10 < common.length then
        match seriesLoc portRets common with
        | .error e => .error e
        | .ok port_aligned =>
          match seriesLoc (pctChangeSeries b) common with
          | .error e => .error e
          | .ok bench_aligned =>
            if linregressXConstant bench_aligned then .error valueErrorMsg
            else .ok (benchRegressionVals port_aligned bench_aligned
              risk_free_rate A annualized_return)
      else .ok zeroBench

/-- The value of the benchmark block when no KeyError occurs: zero metrics
unless a non-empty benchmark overlaps the portfolio in more than 10 dates,
in which case the regression of lines 168-214 runs on the aligned lists. -/
noncomputable def benchBlockSpec (portRets : List (ℕ × ℝ)) :
    Option (List (ℕ × ℝ)) → ℝ → ℕ → ℝ → BenchMetrics
  | none, _, _, _ => zeroBench
  | some b, risk_free_rate, A, annualized_return =>
    if b.isEmpty then zeroBench
    else
      let common := commonDates (portRets.map Prod.fst) (b.map Prod.fst)
      if 10 < common.length then
        benchRegressionVals (locValsD portRets common)
          (locValsD (pctChangeSeries b) common) risk_free_rate A
          annualized_return
      else zeroBench

/-- Keys of the `"metrics"` dictionary in the returned result
(backtester.py lines 397-436). -/
def backtestMetricsKeys : List String :=
  ["total_return", "annualized_return", "annualized_volatility",
   "sharpe_ratio", "sortino_ratio", "max_drawdown", "beta", "alpha",
   "best_year", "worst_year", "arithmetic_mean_monthly",
   "arithmetic_mean_annualized", "geometric_mean_monthly",
   "geometric_mean_annualized", "std_dev_monthly", "std_dev_annualized",
   "downside_dev_monthly", "benchmark_correlation", "treynor_ratio",
   "calmar_ratio", "var_95_daily", "var_99_daily", "var_95_annual",
   "var_99_annual", "cvar_95_daily", "cvar_99_daily", "cvar_95_annual",
   "cvar_99_annual", "skewness", "kurtosis", "tracking_error",
   "information_ratio", "up_capture", "down_capture", "r_squared"]

/-- Top-level keys of the dictionary returned at lines 396-443.  The
`"rebalancing"` entry of the block at lines 445-468 is absent: that block
follows the `return` statement and can never run. -/
def backtestTopLevelKeys : List String :=
  ["metrics", "trailing_returns", "monthly_returns", "drawdowns",
   "correlations", "asset_metrics", "chart_data"]

/-- The result of `run_backtest`: the key sets of the returned
dictionaries together with the claim-relevant metric values (source keys
`sharpe_ratio` and `sortino_ratio` rendered `sharpe` / `sortino`). -/
structure BacktestResult where
  resultKeys : List String
  metricsKeys : List String
  total_return : ℝ
  annualized_return : ℝ
  annualized_volatility : ℝ
  sharpe : ℝ
  sortino : ℝ
  max_drawdown : ℝ
  bench : BenchMetrics

/-- The early return `{"metrics": {}, "chart_data": []}` of line 123. -/
def emptyBacktestResult : BacktestResult :=
  { resultKeys := ["metrics", "chart_data"], metricsKeys := [],
    total_return := 0, annualized_return := 0, annualized_volatility := 0,
    sharpe := 0, sortino := 0, max_drawdown := 0, bench := zeroBench }

/-- Assembly of the normal result (lines 125-149 and 396-443): CAGR,
annualized volatility, guarded Sharpe, LPM2 Sortino versus the geometric
daily MAR (defaulting to the risk-free rate), maximum drawdown, and the
benchmark metrics computed earlier. -/
noncomputable def mkBacktestResult (portRetVals cumulative : List ℝ)
    (initial_capital risk_free_rate : ℝ) (A : ℕ) (mar : Option ℝ)
    (total_return annualized_return : ℝ) (bench : BenchMetrics) :
    BacktestResult :=
  let daily_volatility := sampleStdR portRetVals
  let annualized_volatility := daily_volatility * Real.sqrt (A : ℝ)
  let sharpe :=
    if annualized_volatility ≠ 0
    then (annualized_return - risk_free_rate) / annualized_volatility else 0
  let target_return := mar.getD risk_free_rate
  let target_daily := (1 + target_return) ^ ((1 : ℝ) / (A : ℝ)) - 1
  let downside_diff :=
    (portRetVals.map (fun r => r - target_daily)).filter (fun d => d < 0)
  let downside_variance :=
    (downside_diff.map (fun d => d ^ 2)).sum / (portRetVals.length : ℝ)
  let downside_deviation := Real.sqrt downside_variance * Real.sqrt (A : ℝ)
  let sortino :=
    if downside_deviation ≠ 0
    then (annualized_return - target_return) / downside_deviation else 0
  let portfolio_value := cumulative.map (fun c => initial_capital * c)
  let max_drawdown := listMinD (drawdownSeries portfolio_value) 0
  { resultKeys := backtestTopLevelKeys, metricsKeys := backtestMetricsKeys,
    total_return := total_return, annualized_return := annualized_return,
    annualized_volatility := annualized_volatility, sharpe := sharpe,
    sortino := sortino, max_drawdown := max_drawdown, bench := bench }

/-- The weighted daily portfolio return series (lines 97-105):
weights aligned over the price columns, panel percentage change, then the
row-by-weight dot product. -/
noncomputable def portfolioReturnsOf (tickers : List String)
    (prices : List (ℕ × List ℝ)) (weights : List (String × ℝ)) :
    List (ℕ × ℝ) :=
  let weight_vector := tickers.map (fun t => lookupD weights t 0)
  (pctChangeRows prices).map (fun dr => (dr.1, dotR dr.2 weight_vector))

/-- `run_backtest(prices, weights, benchmark_data, initial_capital,
risk_free_rate, annualization_factor, mar, rebalance_freq)`
(backtester.py lines 92-443).  The final parameter `rebalance_freq` is
accepted but never consulted: the only code reading it sits after the
`return` statement. -/
noncomputable def run_backtest (tickers : List String)
    (prices : List (ℕ × List ℝ)) (weights : List (String × ℝ))
    (benchmark_data : Option (List (ℕ × ℝ)))
    (initial_capital risk_free_rate : ℝ) (annualization_factor : ℕ)
    (mar : Option ℝ) (rebalance_freq : String) :
    Except String BacktestResult :=
  let portRets := portfolioReturnsOf tickers prices weights
  let cumulative := cumprodOnePlus (portRets.map Prod.snd)
  match cumulative.getLast? with
  | none => .error indexErrorMsg
  | some lastCum =>
    let total_return := lastCum - 1
    let days := portRets.length
    if days < 1 then .ok emptyBacktestResult
    else
      let annualized_return :=
        annualizedReturnOf total_return days annualization_factor
      match benchExcept portRets benchmark_data risk_free_rate
          annualization_factor annualized_return with
      | .error e => .error e
      | .ok bench =>
        .ok (mkBacktestResult (portRets.map Prod.snd) cumulative
          initial_capital risk_free_rate annualization_factor mar
          total_return annualized_return bench)

/-- The annualized return actually passed to the benchmark block, written
with a total last-element access (equal to the `iloc[-1]` value whenever
the series is non-empty). -/
noncomputable def backtestAnnReturn (tickers : List String)
    (prices : List (ℕ × List ℝ)) (weights : List (String × ℝ)) (A : ℕ) : ℝ :=
  let portRets := portfolioReturnsOf tickers prices weights
  annualizedReturnOf
    ((cumprodOnePlus (portRets.map Prod.snd)).getLastD 0 - 1)
    portRets.length A

/-! ## Helper lemmas -/

theorem length_pctChangeRowsAux (l : List (ℕ × List ℝ)) :
    ∀ prev, (pctChangeRowsAux prev l).length = l.length := by
  induction l with
  | nil => intro prev; rfl
  | cons x rest ih =>
    intro prev
    cases x with
    | mk d row => simp [pctChangeRowsAux, ih row]

theorem length_pctChangeRows (prices : List (ℕ × List ℝ)) :
    (pctChangeRows prices).length = prices.length - 1 := by
  cases prices with
  | nil => rfl
  | cons x rest =>
    cases x with
    | mk d row => simp [pctChangeRows, length_pctChangeRowsAux]

theorem length_cumprodOnePlusAux (l : List ℝ) :
    ∀ acc, (cumprodOnePlusAux acc l).length = l.length := by
  induction l with
  | nil => intro acc; rfl
  | cons r rest ih => intro acc; simp [cumprodOnePlusAux, ih]

theorem length_cumprodOnePlus (l : List ℝ) :
    (cumprodOnePlus l).length = l.length :=
  length_cumprodOnePlusAux l 1

theorem length_portfolioReturnsOf (tickers : List String)
    (prices : List (ℕ × List ℝ)) (weights : List (String × ℝ)) :
    (portfolioReturnsOf tickers prices weights).length = prices.length - 1 := by
  simp [portfolioReturnsOf, length_pctChangeRows]

theorem seriesLoc_eq_ok (s : List (ℕ × ℝ)) :
    ∀ dates : List ℕ, dates.all (fun d => (lookupDate s d).isSome) = true →
      seriesLoc s dates = .ok (locValsD s dates) := by
  intro dates
  induction dates with
  | nil => intro _; rfl
  | cons d rest ih =>
    intro hall
    rw [List.all_cons, Bool.and_eq_true] at hall
    obtain ⟨v, hv⟩ := Option.isSome_iff_exists.mp hall.1
    simp [seriesLoc, locValsD, hv, ih hall.2, Except.map]

theorem benchExcept_eq_ok (portRets : List (ℕ × ℝ))
    (benchmark_data : Option (List (ℕ × ℝ))) (risk_free_rate : ℝ) (A : ℕ)
    (annualized_return : ℝ)
    (hok : benchLookupsGood portRets benchmark_data = true) :
    benchExcept portRets benchmark_data risk_free_rate A annualized_return =
      .ok (benchBlockSpec portRets benchmark_data risk_free_rate A
        annualized_return) := by
  cases benchmark_data with
  | none => rfl
  | some b =>
    by_cases hemp : b.isEmpty
    · simp [benchExcept, benchBlockSpec, hemp]
    · by_cases hlen :
        10 < (commonDates (portRets.map Prod.fst) (b.map Prod.fst)).length
      · have hbc : benchCondition (portRets.map Prod.fst) (some b) = true := by
          simp [benchCondition, hemp, hlen]
        have hall : ((commonDates (portRets.map Prod.fst) (b.map Prod.fst)).all
              (fun d => (lookupDate portRets d).isSome) = true ∧
            (commonDates (portRets.map Prod.fst) (b.map Prod.fst)).all
              (fun d => (lookupDate (pctChangeSeries b) d).isSome) = true) ∧
            linregressXConstant (locValsD (pctChangeSeries b)
              (commonDates (portRets.map Prod.fst) (b.map Prod.fst))) = false := by
          have h := hok
          rw [benchLookupsGood, hbc] at h
          simp only [Bool.not_true, Bool.false_or, Bool.and_eq_true,
            Bool.not_eq_true'] at h
          exact h
        simp only [benchExcept, benchBlockSpec, if_neg hemp, if_pos hlen]
        rw [seriesLoc_eq_ok _ _ hall.1.1, seriesLoc_eq_ok _ _ hall.1.2]
        simp [hall.2]
      · simp [benchExcept, benchBlockSpec, hemp, hlen]

theorem getLastD_map_dot {α β : Type} (f : α → β) (dflt : β) :
    ∀ (l : List α) (x : α), ((x :: l).map f).getLastD dflt = f (l.getLastD x) := by
  intro l
  induction l with
  | nil => intro x; rfl
  | cons y ys ih =>
    intro x
    rw [List.map_cons, List.getLastD_cons, List.getLastD_cons]
    exact ih y

theorem rebalanceStep_no_periods (wv : List ℚ) (cost : ℚ) (st : RebalState)
    (row : ℕ × List ℚ) :
    rebalanceStep wv cost [] st row =
      { st with values := st.values ++ [dotQ st.shares row.2] } := by
  simp [rebalanceStep]

theorem foldl_rebalanceStep_no_periods (wv : List ℚ) (cost : ℚ) :
    ∀ (rows : List (ℕ × List ℚ)) (st : RebalState),
      rows.foldl (rebalanceStep wv cost []) st =
        { st with
          values := st.values ++ rows.map (fun row => dotQ st.shares row.2) } := by
  intro rows
  induction rows with
  | nil => intro st; simp
  | cons r rest ih =>
    intro st
    rw [List.foldl_cons, rebalanceStep_no_periods, ih]
    simp

theorem run_backtest_ok_spec (tickers : List String)
    (prices : List (ℕ × List ℝ)) (weights : List (String × ℝ))
    (benchmark_data : Option (List (ℕ × ℝ)))
    (initial_capital risk_free_rate : ℝ) (A : ℕ) (mar : Option ℝ)
    (freq : String) (h2 : 2 ≤ prices.length)
    (hok : benchLookupsGood (portfolioReturnsOf tickers prices weights)
      benchmark_data = true) :
    ∃ r, run_backtest tickers prices weights benchmark_data initial_capital
        risk_free_rate A mar freq = .ok r ∧
      r.resultKeys = backtestTopLevelKeys ∧
      r.metricsKeys = backtestMetricsKeys ∧
      r.bench = benchBlockSpec (portfolioReturnsOf tickers prices weights)
        benchmark_data risk_free_rate A
        (backtestAnnReturn tickers prices weights A) := by
  have hlen : (cumprodOnePlus
      ((portfolioReturnsOf tickers prices weights).map Prod.snd)).length =
      prices.length - 1 := by
    rw [length_cumprodOnePlus, List.length_map, length_portfolioReturnsOf]
  have hne : cumprodOnePlus
      ((portfolioReturnsOf tickers prices weights).map Prod.snd) ≠ [] := by
    intro e
    rw [e] at hlen
    simp only [List.length_nil] at hlen
    omega
  obtain ⟨c, hc⟩ :=
    Option.isSome_iff_exists.mp (List.getLast?_isSome.mpr hne)
  have hdays : ¬((portfolioReturnsOf tickers prices weights).length < 1) := by
    rw [length_portfolioReturnsOf]
    omega
  have hann : annualizedReturnOf (c - 1)
      (portfolioReturnsOf tickers prices weights).length A =
      backtestAnnReturn tickers prices weights A := by
    simp only [backtestAnnReturn, List.getLastD_eq_getLast?, hc, Option.getD_some]
  have hbench := benchExcept_eq_ok (portfolioReturnsOf tickers prices weights)
    benchmark_data risk_free_rate A
    (annualizedReturnOf (c - 1)
      (portfolioReturnsOf tickers prices weights).length A) hok
  have hrun : run_backtest tickers prices weights benchmark_data
      initial_capital risk_free_rate A mar freq =
      .ok (mkBacktestResult
        ((portfolioReturnsOf tickers prices weights).map Prod.snd)
        (cumprodOnePlus ((portfolioReturnsOf tickers prices weights).map Prod.snd))
        initial_capital risk_free_rate A mar (c - 1)
        (annualizedReturnOf (c - 1)
          (portfolioReturnsOf tickers prices weights).length A)
        (benchBlockSpec (portfolioReturnsOf tickers prices weights)
          benchmark_data risk_free_rate A
          (annualizedReturnOf (c - 1)
            (portfolioReturnsOf tickers prices weights).length A))) := by
    simp only [run_backtest]
    split
    · next heq =>
        rw [hc] at heq
        exact Option.noConfusion heq
    · next lastCum heq =>
        rw [hc] at heq
        injection heq with hlc
        subst hlc
        rw [if_neg hdays, hbench]
  rw [hann] at hrun
  exact ⟨_, hrun, rfl, rfl, rfl⟩

/-! ## Claim theorems -/

/-- C4: for every returns matrix with at least two observations, the
Ledoit-Wolf shrinkage intensity delta lies in [0, 1], and every diagonal
entry of the shrunk covariance delta * F + (1 - delta) * S equals the
corresponding sample-variance diagonal entry of S exactly. -/
theorem ledoit_wolf_delta_unit_and_diagonal (returns : List (List ℝ))
    (h : 2 ≤ returns.length) :
    (0 ≤ lwDelta returns ∧ lwDelta returns ≤ 1) ∧
      ∀ i, shrunkCovEntry returns i i = sampleCovEntry returns i i := by
  refine ⟨?_, ?_⟩
  · unfold lwDelta
    split
    · exact ⟨le_min (by norm_num) (le_max_left 0 _), min_le_left 1 _⟩
    · exact ⟨le_refl 0, by norm_num⟩
  · intro i
    unfold shrunkCovEntry targetEntry
    rw [if_pos rfl]
    ring

/-- Witness for C4 at a concrete 2x2 returns matrix. -/
theorem ledoit_wolf_delta_unit_and_diagonal_witness :
    2 ≤ ([[(1 : ℝ), 2], [3, 5]] : List (List ℝ)).length ∧
      ((0 ≤ lwDelta [[(1 : ℝ), 2], [3, 5]] ∧ lwDelta [[(1 : ℝ), 2], [3, 5]] ≤ 1) ∧
        ∀ i, shrunkCovEntry [[(1 : ℝ), 2], [3, 5]] i i =
          sampleCovEntry [[(1 : ℝ), 2], [3, 5]] i i) :=
  ⟨by decide, ledoit_wolf_delta_unit_and_diagonal _ (by decide)⟩

/-- C5 counterexample: a returns matrix with a single observation
(T = 1 < 2) runs `ledoit_wolf_shrinkage` to completion; no error of any
kind — in particular no InsufficientDataError — is raised. -/
theorem ledoit_wolf_no_error_counterexample :
    ([[(1 : ℝ), 2]] : List (List ℝ)).length < 2 ∧
      (ledoit_wolf_shrinkage [[(1 : ℝ), 2]]).isOk = true :=
  ⟨by decide, rfl⟩

/-- C5 amended: a returns matrix with fewer than two observations never
raises an InsufficientDataError (no such class exists, and the source has
no length check): with T = 1 the estimator returns normally (a silent NaN
covariance), and with T = 0 it raises ZeroDivisionError at the
`delta_num /= T` division of line 58. -/
theorem ledoit_wolf_no_insufficient_data_when_T_lt_2
    (returns : List (List ℝ)) (h : returns.length < 2) :
    (returns.length = 0 ∧
      ledoit_wolf_shrinkage returns = .error zeroDivisionErrorMsg) ∨
    (returns.length = 1 ∧ (ledoit_wolf_shrinkage returns).isOk = true) := by
  have hcases : returns.length = 0 ∨ returns.length = 1 := by omega
  rcases hcases with h0 | h1
  · exact Or.inl ⟨h0, by simp [ledoit_wolf_shrinkage, h0]⟩
  · exact Or.inr ⟨h1, by simp [ledoit_wolf_shrinkage, h1, Except.isOk, Except.toBool]⟩

/-- Witness for the amended C5 at a concrete one-row matrix. -/
theorem ledoit_wolf_no_insufficient_data_when_T_lt_2_witness :
    ([[(3 : ℝ), 4, 5]] : List (List ℝ)).length < 2 ∧
      ((([[(3 : ℝ), 4, 5]] : List (List ℝ)).length = 0 ∧
        ledoit_wolf_shrinkage [[(3 : ℝ), 4, 5]] =
          .error zeroDivisionErrorMsg) ∨
       (([[(3 : ℝ), 4, 5]] : List (List ℝ)).length = 1 ∧
        (ledoit_wolf_shrinkage [[(3 : ℝ), 4, 5]]).isOk = true)) :=
  ⟨by decide, ledoit_wolf_no_insufficient_data_when_T_lt_2 _ (by decide)⟩

/-- C6 counterexample: at a weight vector with exactly zero portfolio
volatility (zero covariance matrix) the Sharpe objective performs an
unguarded division by zero, so its float value is non-finite (`none`),
not a large finite sentinel. -/
theorem negative_sharpe_nonfinite_counterexample :
    (calculate_portfolio_performance [1] [1] [[0]] (9 / 200) 252).2.1 = 0 ∧
      negative_sharpe [1] [1] [[0]] (9 / 200) 252 = none := by
  have hstd : (calculate_portfolio_performance [1] [1] [[0]] (9 / 200) 252).2.1
      = 0 := by
    simp [calculate_portfolio_performance, quadForm, dotR]
  exact ⟨hstd, by simp [negative_sharpe, hstd]⟩

/-- C6 amended: whenever the portfolio volatility is exactly zero,
`negative_sharpe` yields a non-finite value (modelled `none`), never a
large finite sentinel: the Sharpe objective has no sentinel branch. -/
theorem negative_sharpe_none_at_zero_vol (weights mean_returns : List ℝ)
    (cov_matrix : List (List ℝ)) (risk_free_rate : ℝ)
    (annualization_factor : ℕ)
    (h : (calculate_portfolio_performance weights mean_returns cov_matrix
      risk_free_rate annualization_factor).2.1 = 0) :
    negative_sharpe weights mean_returns cov_matrix risk_free_rate
      annualization_factor = none := by
  simp [negative_sharpe, h]

/-- Witness for the amended C6 at a second concrete zero-volatility
input. -/
theorem negative_sharpe_none_at_zero_vol_witness :
    (calculate_portfolio_performance [2] [3] [[0]] 0 4).2.1 = 0 ∧
      negative_sharpe [2] [3] [[0]] 0 4 = none :=
  have h : (calculate_portfolio_performance [2] [3] [[0]] 0 4).2.1 = 0 := by
    simp [calculate_portfolio_performance, quadForm, dotR]
  ⟨h, negative_sharpe_none_at_zero_vol _ _ _ _ _ h⟩

/-- C10 counterexample: the string `"min_volatility"` lies outside the
eight recognized tags, yet `optimize_portfolio` does not fall back to the
Sharpe objective on it — it selects minimum volatility. -/
theorem select_objective_min_volatility_counterexample :
    "min_volatility" ∉ recognizedObjectiveTags ∧
      select_objective "min_volatility" false = .ok ObjectiveKind.min_vol ∧
      ObjectiveKind.min_vol ≠ ObjectiveKind.sharpe :=
  ⟨by decide, rfl, by decide⟩

/-- C10 amended: every objective string outside the eight recognized tags
and the alias `"min_volatility"` silently falls back to the Sharpe
objective, raising no error. -/
theorem select_objective_unknown_falls_back_to_sharpe (objective : String)
    (b : Bool) (h1 : objective ∉ recognizedObjectiveTags)
    (h2 : objective ≠ "min_volatility") :
    select_objective objective b = .ok ObjectiveKind.sharpe := by
  have hs : objective ≠ "sharpe" := by
    intro e; exact h1 (by rw [e]; decide)
  have hmv : objective ≠ "min_vol" := by
    intro e; exact h1 (by rw [e]; decide)
  have hmr : objective ≠ "max_return" := by
    intro e; exact h1 (by rw [e]; decide)
  have hk : objective ≠ "kelly" := by
    intro e; exact h1 (by rw [e]; decide)
  have hso : objective ≠ "sortino" := by
    intro e; exact h1 (by rw [e]; decide)
  have homega : objective ≠ "omega" := by
    intro e; exact h1 (by rw [e]; decide)
  have hcal : objective ≠ "calmar" := by
    intro e; exact h1 (by rw [e]; decide)
  have htre : objective ≠ "treynor" := by
    intro e; exact h1 (by rw [e]; decide)
  simp [select_objective, hs, hmv, hmr, hk, hso, homega, hcal, htre, h2]

/-- Witness for the amended C10 at the unknown string `"foo"`. -/
theorem select_objective_unknown_falls_back_to_sharpe_witness :
    ("foo" ∉ recognizedObjectiveTags) ∧ ("foo" : String) ≠ "min_volatility" ∧
      select_objective "foo" true = .ok ObjectiveKind.sharpe :=
  ⟨by decide, by decide,
    select_objective_unknown_falls_back_to_sharpe "foo" true (by decide)
      (by decide)⟩

/-- C3: the `optimal_portfolio` reported by the `/api/optimize` handler
equals, for objective `"sharpe"`, exactly the externally supplied
`OptimizationResult` (same weights dictionary and the same
expected_return / volatility / sharpe_ratio values — the right-hand side
does not mention the mean returns, covariance or frontier points, so
nothing is recomputed); for every other objective it is the frontier
generator's own best-sharpe point `pyMaxBySharpe frontier_points`,
computed independently of the supplied result. -/
theorem optimal_point_consistency (objective : String)
    (R : OptimizationResult) (tickers : List String) (mean_returns : List ℝ)
    (cov_matrix : List (List ℝ)) (risk_free_rate : ℝ)
    (annualization_factor : ℕ) (frontier_points : List PortfolioPoint) :
    optimize_endpoint_optimal objective R tickers mean_returns cov_matrix
        risk_free_rate annualization_factor frontier_points =
      if objective = "sharpe" then
        some { volatility := R.metrics.volatility,
               ret := R.metrics.expected_return,
               sharpe := R.metrics.sharpe, weights := R.weights }
      else pyMaxBySharpe frontier_points := by
  by_cases h : objective = "sharpe" <;>
    simp [optimize_endpoint_optimal, frontier_optimal_pick, h]

theorem benchBlockSpec_zero_of_condition_false (portRets : List (ℕ × ℝ))
    (bd : Option (List (ℕ × ℝ))) (rf : ℝ) (A : ℕ) (ann : ℝ)
    (h : benchCondition (portRets.map Prod.fst) bd = false) :
    benchBlockSpec portRets bd rf A ann = zeroBench := by
  cases bd with
  | none => rfl
  | some b =>
    by_cases hemp : b.isEmpty
    · simp [benchBlockSpec, hemp]
    · have hlen : ¬10 <
          (commonDates (portRets.map Prod.fst) (b.map Prod.fst)).length := by
        intro hl
        simp [benchCondition, hemp, hl] at h
      simp [benchBlockSpec, hemp, hlen]

/-- C1: on a price panel yielding zero valid portfolio return observations,
`run_backtest` does not return empty metrics — it raises IndexError: the
`days < 1` guard of line 122 sits after the `cumulative_returns.iloc[-1]`
access of line 117, which fails first on the empty series. -/
theorem run_backtest_index_error_on_no_observations (tickers : List String)
    (prices : List (ℕ × List ℝ)) (weights : List (String × ℝ))
    (benchmark_data : Option (List (ℕ × ℝ)))
    (initial_capital risk_free_rate : ℝ) (A : ℕ) (mar : Option ℝ)
    (freq : String) (h : (pctChangeRows prices).length = 0) :
    run_backtest tickers prices weights benchmark_data initial_capital
      risk_free_rate A mar freq = .error indexErrorMsg := by
  have hnil : pctChangeRows prices = [] := List.length_eq_zero.mp h
  have hport : portfolioReturnsOf tickers prices weights = [] := by
    simp [portfolioReturnsOf, hnil]
  simp only [run_backtest, hport]
  rfl

/-- Witness for C1 at a single-row price panel (zero return
observations). -/
theorem run_backtest_index_error_on_no_observations_witness :
    (pctChangeRows [((0 : ℕ), [(100 : ℝ)])]).length = 0 ∧
      run_backtest ["A"] [((0 : ℕ), [(100 : ℝ)])] [("A", 1)] none 10000
        (9 / 200) 252 none "never" = .error indexErrorMsg :=
  ⟨rfl, run_backtest_index_error_on_no_observations _ _ _ _ _ _ _ _ _ rfl⟩

/-- C9: with rebalance frequency `"never"` and zero transaction cost the
rebalancing backtest incurs zero total transaction costs, performs zero
rebalances, and its total return equals the buy-and-hold total return of
holding the initial share counts `weight_i * capital / first_price_i`
unchanged to the final date. -/
theorem rebalancing_never_is_buy_and_hold (tickers : List String)
    (prices : List (ℕ × List ℚ)) (weights : List (String × ℚ))
    (initial_capital : ℚ) (resampled_period_ends : List ℕ)
    (h : prices ≠ []) :
    ∃ r, run_backtest_with_rebalancing tickers prices weights initial_capital
        "never" 0 resampled_period_ends = .ok r ∧
      r.total_transaction_costs = 0 ∧ r.num_rebalances = 0 ∧
      r.total_return =
        buyAndHoldTotalReturn tickers prices weights initial_capital := by
  obtain ⟨first, rest, rfl⟩ : ∃ a l, prices = a :: l := by
    cases prices with
    | nil => exact absurd rfl h
    | cons a l => exact ⟨a, l, rfl⟩
  have hper : ¬(("never" : String) = "monthly" ∨
      ("never" : String) = "quarterly" ∨ ("never" : String) = "annual") := by
    decide
  simp only [run_backtest_with_rebalancing, if_neg hper,
    foldl_rebalanceStep_no_periods, List.nil_append]
  refine ⟨_, rfl, rfl, rfl, ?_⟩
  rw [getLastD_map_dot]
  simp only [buyAndHoldTotalReturn, List.zipWith_map_left]

/-- Witness for C9 at a concrete two-row panel. -/
theorem rebalancing_never_is_buy_and_hold_witness :
    (([((0 : ℕ), [(2 : ℚ)]), (1, [3])] : List (ℕ × List ℚ)) ≠ []) ∧
      ∃ r, run_backtest_with_rebalancing ["A"]
          [((0 : ℕ), [(2 : ℚ)]), (1, [3])] [("A", 1)] 100 "never" 0 [] =
          .ok r ∧
        r.total_transaction_costs = 0 ∧ r.num_rebalances = 0 ∧
        r.total_return = buyAndHoldTotalReturn ["A"]
          [((0 : ℕ), [(2 : ℚ)]), (1, [3])] [("A", 1)] 100 :=
  ⟨by decide, rebalancing_never_is_buy_and_hold _ _ _ _ _ (by decide)⟩

/-- C2 counterexample: a concrete successful backtest whose result carries
no per-asset risk-contribution map — its top-level entries are exactly
metrics, trailing_returns, monthly_returns, drawdowns, correlations,
asset_metrics and chart_data. -/
theorem run_backtest_missing_risk_contribution_counterexample :
    ∃ r, run_backtest ["A"] [((0 : ℕ), [(100 : ℝ)]), (1, [110]), (2, [121])]
        [("A", 1)] none 10000 (9 / 200) 252 none "never" = .ok r ∧
      r.resultKeys = backtestTopLevelKeys ∧
      "risk_contribution" ∉ r.resultKeys := by
  obtain ⟨r, hr, hk, -, -⟩ := run_backtest_ok_spec ["A"]
    [((0 : ℕ), [(100 : ℝ)]), (1, [110]), (2, [121])] [("A", 1)] none 10000
    (9 / 200) 252 none "never" (by decide) rfl
  exact ⟨r, hr, hk, by rw [hk]; decide⟩

/-- C2 amended: every successful `run_backtest` result has exactly the
top-level entries metrics, trailing_returns, monthly_returns, drawdowns,
correlations, asset_metrics and chart_data — no per-asset
risk-contribution map exists anywhere in the result. -/
theorem run_backtest_result_has_no_risk_contribution (tickers : List String)
    (prices : List (ℕ × List ℝ)) (weights : List (String × ℝ))
    (benchmark_data : Option (List (ℕ × ℝ)))
    (initial_capital risk_free_rate : ℝ) (A : ℕ) (mar : Option ℝ)
    (freq : String) (h2 : 2 ≤ prices.length)
    (hok : benchLookupsGood (portfolioReturnsOf tickers prices weights)
      benchmark_data = true) :
    ∃ r, run_backtest tickers prices weights benchmark_data initial_capital
        risk_free_rate A mar freq = .ok r ∧
      r.resultKeys = backtestTopLevelKeys ∧
      "risk_contribution" ∉ r.resultKeys := by
  obtain ⟨r, hr, hk, -, -⟩ := run_backtest_ok_spec tickers prices weights
    benchmark_data initial_capital risk_free_rate A mar freq h2 hok
  exact ⟨r, hr, hk, by rw [hk]; decide⟩

/-- Witness for the amended C2 at a concrete two-row panel without a
benchmark. -/
theorem run_backtest_result_has_no_risk_contribution_witness :
    2 ≤ ([((0 : ℕ), [(1 : ℝ)]), (1, [2])] : List (ℕ × List ℝ)).length ∧
      benchLookupsGood
        (portfolioReturnsOf ["A"] [((0 : ℕ), [(1 : ℝ)]), (1, [2])]
          [("A", 1)]) none = true ∧
      ∃ r, run_backtest ["A"] [((0 : ℕ), [(1 : ℝ)]), (1, [2])] [("A", 1)]
          none 10000 (9 / 200) 252 none "never" = .ok r ∧
        r.resultKeys = backtestTopLevelKeys ∧
        "risk_contribution" ∉ r.resultKeys :=
  ⟨by decide, rfl,
    run_backtest_result_has_no_risk_contribution _ _ _ _ _ _ _ _ _
      (by decide) rfl⟩

/-- C7: called with rebalance frequency `"quarterly"` (any schedule other
than `"never"`), `run_backtest` returns a result without any
`"rebalancing"` entry: the code that would add it (lines 445-468) sits
after the `return` statement of lines 396-443 and references an undefined
name `return_dict`, so it can never run. -/
theorem run_backtest_no_rebalancing_record :
    ∃ r, run_backtest ["A"] [((0 : ℕ), [(50 : ℝ)]), (1, [55]), (2, [60])]
        [("A", 1)] none 10000 (9 / 200) 252 none "quarterly" = .ok r ∧
      r.resultKeys = backtestTopLevelKeys ∧ "rebalancing" ∉ r.resultKeys := by
  obtain ⟨r, hr, hk, -, -⟩ := run_backtest_ok_spec ["A"]
    [((0 : ℕ), [(50 : ℝ)]), (1, [55]), (2, [60])] [("A", 1)] none 10000
    (9 / 200) 252 none "quarterly" (by decide) rfl
  exact ⟨r, hr, hk, by rw [hk]; decide⟩

/-- C8 counterexample: with exactly 10 overlapping portfolio-benchmark
observations after index intersection (the claim's "at least 10"
boundary), the benchmark metrics are all zeroed: the source requires
strictly more than 10. -/
theorem run_backtest_bench_zero_at_ten_counterexample :
    (commonDates
        ((portfolioReturnsOf ["A"]
          [((0 : ℕ), [(1 : ℝ)]), (1, [1]), (2, [1]), (3, [1]), (4, [1]),
           (5, [1]), (6, [1]), (7, [1]), (8, [1]), (9, [1]), (10, [1])]
          [("A", 1)]).map Prod.fst)
        (([((0 : ℕ), (1 : ℝ)), (1, 1), (2, 1), (3, 1), (4, 1), (5, 1),
           (6, 1), (7, 1), (8, 1), (9, 1), (10, 1)]).map Prod.fst)).length
      = 10 ∧
    ∃ r, run_backtest ["A"]
        [((0 : ℕ), [(1 : ℝ)]), (1, [1]), (2, [1]), (3, [1]), (4, [1]),
         (5, [1]), (6, [1]), (7, [1]), (8, [1]), (9, [1]), (10, [1])]
        [("A", 1)]
        (some [((0 : ℕ), (1 : ℝ)), (1, 1), (2, 1), (3, 1), (4, 1), (5, 1),
          (6, 1), (7, 1), (8, 1), (9, 1), (10, 1)])
        10000 (9 / 200) 252 none "never" = .ok r ∧
      r.bench = zeroBench := by
  constructor
  · rfl
  · obtain ⟨r, hr, -, -, hb⟩ := run_backtest_ok_spec ["A"]
      [((0 : ℕ), [(1 : ℝ)]), (1, [1]), (2, [1]), (3, [1]), (4, [1]),
       (5, [1]), (6, [1]), (7, [1]), (8, [1]), (9, [1]), (10, [1])]
      [("A", 1)]
      (some [((0 : ℕ), (1 : ℝ)), (1, 1), (2, 1), (3, 1), (4, 1), (5, 1),
        (6, 1), (7, 1), (8, 1), (9, 1), (10, 1)])
      10000 (9 / 200) 252 none "never" (by decide) rfl
    refine ⟨r, hr, ?_⟩
    rw [hb]
    rfl

/-- C8 amended: on every successful backtest (with well-aligned benchmark
lookups) the benchmark metrics equal `benchBlockSpec`: they are computed by
the regression of lines 168-214 exactly when a non-empty benchmark shares
strictly more than 10 dates with the portfolio returns, and are all zero
whenever that guard fails — with no exception raised. -/
theorem run_backtest_bench_computed_iff_more_than_ten (tickers : List String)
    (prices : List (ℕ × List ℝ)) (weights : List (String × ℝ))
    (benchmark_data : Option (List (ℕ × ℝ)))
    (initial_capital risk_free_rate : ℝ) (A : ℕ) (mar : Option ℝ)
    (freq : String) (h2 : 2 ≤ prices.length)
    (hok : benchLookupsGood (portfolioReturnsOf tickers prices weights)
      benchmark_data = true) :
    ∃ r, run_backtest tickers prices weights benchmark_data initial_capital
        risk_free_rate A mar freq = .ok r ∧
      r.bench = benchBlockSpec (portfolioReturnsOf tickers prices weights)
        benchmark_data risk_free_rate A
        (backtestAnnReturn tickers prices weights A) ∧
      (benchCondition
          ((portfolioReturnsOf tickers prices weights).map Prod.fst)
          benchmark_data = false → r.bench = zeroBench) := by
  obtain ⟨r, hr, -, -, hb⟩ := run_backtest_ok_spec tickers prices weights
    benchmark_data initial_capital risk_free_rate A mar freq h2 hok
  refine ⟨r, hr, hb, ?_⟩
  intro hcond
  rw [hb]
  exact benchBlockSpec_zero_of_condition_false _ _ _ _ _ hcond

/-- Witness for the amended C8: a 4-row panel sharing 3 dates with the
benchmark, so the more-than-10 guard fails, the branch cannot abort
(`benchLookupsGood` holds vacuously) and the metrics are zeroed. -/
theorem run_backtest_bench_computed_iff_more_than_ten_witness :
    2 ≤ ([((0 : ℕ), [(2 : ℝ)]), (1, [3]), (2, [4]), (3, [5])] :
        List (ℕ × List ℝ)).length ∧
      benchLookupsGood
        (portfolioReturnsOf ["A"]
          [((0 : ℕ), [(2 : ℝ)]), (1, [3]), (2, [4]), (3, [5])] [("A", 1)])
        (some [((0 : ℕ), (1 : ℝ)), (1, 2), (2, 4), (3, 7)]) = true ∧
      ∃ r, run_backtest ["A"]
          [((0 : ℕ), [(2 : ℝ)]), (1, [3]), (2, [4]), (3, [5])] [("A", 1)]
          (some [((0 : ℕ), (1 : ℝ)), (1, 2), (2, 4), (3, 7)])
          5000 (9 / 200) 252 none "never" = .ok r ∧
        r.bench = benchBlockSpec
          (portfolioReturnsOf ["A"]
            [((0 : ℕ), [(2 : ℝ)]), (1, [3]), (2, [4]), (3, [5])] [("A", 1)])
          (some [((0 : ℕ), (1 : ℝ)), (1, 2), (2, 4), (3, 7)]) (9 / 200) 252
          (backtestAnnReturn ["A"]
            [((0 : ℕ), [(2 : ℝ)]), (1, [3]), (2, [4]), (3, [5])] [("A", 1)]
            252) ∧
        (benchCondition
            ((portfolioReturnsOf ["A"]
              [((0 : ℕ), [(2 : ℝ)]), (1, [3]), (2, [4]), (3, [5])]
              [("A", 1)]).map Prod.fst)
            (some [((0 : ℕ), (1 : ℝ)), (1, 2), (2, 4), (3, 7)]) = false →
          r.bench = zeroBench) :=
  ⟨by decide, rfl,
    run_backtest_bench_computed_iff_more_than_ten _ _ _ _ _ _ _ _ _
      (by decide) rfl⟩
